import Mathlib

/-!
# Staple: authentication handlers and the maximum-staples endpoint

A shallow embedding of `pkg/auth/auth.go` (`Middleware`, `LoginHandler`,
`Callback`), of `pkg/config/config.go` (`ApiError`) and of
`SetMaximumStaples` from `pkg/users.go`.

The handlers are sequences of calls into collaborators that live outside the
repository (the session store, the OIDC/OAuth2 client, the random source, the
user service).  Each collaborator is a field of an environment record; a
handler is a function from the environment to a `Result` that records the
response call the run ends with, what the run committed on echo's response
(`wire`), the other calls made with an effect (`trace`), the in-memory
session values at the end of the run and the values handed to a successful
`sess.Save`.
-/

namespace Staple

set_option linter.dupNamespace false

/-! ## Go values held in `interface{}` -/

/-- A Go value boxed in an `interface{}`: the nil interface, a `string`, an
`int`, or a `map[string]interface{}` (the one dynamic type used here that Go
cannot compare). -/
inductive Value where
  | nil : Value
  | str (s : String) : Value
  | int (n : Int) : Value
  | map (m : List (String × String)) : Value
  deriving DecidableEq, Repr

/-- Go's `==` on two interface values: `none` is the run-time panic raised
when both hold the same uncomparable dynamic type. -/
def ifaceEq : Value → Value → Option Bool
  | .nil, .nil => some true
  | .str a, .str b => some (decide (a = b))
  | .int a, .int b => some (decide (a = b))
  | .map _, .map _ => none
  | _, _ => some false

/-- The value of `sess.Values`, restricted to string keys: the first binding
of a key is the live one. -/
abbrev Session := List (String × Value)

/-- Go's `m[k]` with one result: the nil interface when the key is absent. -/
def Session.get (s : Session) (k : String) : Value :=
  match s.lookup k with
  | some v => v
  | none => Value.nil

/-- Go's `_, ok := m[k]`. -/
def Session.has (s : Session) (k : String) : Bool :=
  (s.lookup k).isSome

/-- Go's `m[k] = v`. -/
def Session.set (s : Session) (k : String) (v : Value) : Session :=
  (k, v) :: s.filter (fun p => p.1 != k)

/-! ## `encoding/base64`: `StdEncoding` -/

/-- The alphabet of `base64.StdEncoding` (`encodeStd`). -/
def encodeStd : List Char :=
  "ABCDEFGHIJKLMNOPQRSTUVWXYZabcdefghijklmnopqrstuvwxyz0123456789+/".toList

/-- The table lookup `enc.encode[n]`. -/
def encChar (n : Nat) : Char := encodeStd.getD n 'A'

/-- The table lookup `enc.decodeMap[c]`: `none` stands for the entry `0xFF`
of a byte outside the alphabet. -/
def decChar (c : Char) : Option Nat :=
  let i := encodeStd.indexOf c
  if i < 64 then some i else none

/-- The padding character of `StdEncoding`. -/
def padChar : Char := '='

/-- The loop of `Encoding.Encode`: three bytes give four characters, and a
remainder of one or two bytes gives a padded group. -/
def encode : List Nat → List Char
  | a :: b :: c :: rest =>
    let val := a * 65536 + b * 256 + c
    encChar (val / 262144 % 64) :: encChar (val / 4096 % 64) ::
      encChar (val / 64 % 64) :: encChar (val % 64) :: encode rest
  | [a, b] =>
    let val := a * 65536 + b * 256
    [encChar (val / 262144 % 64), encChar (val / 4096 % 64), encChar (val / 64 % 64), padChar]
  | [a] =>
    let val := a * 65536
    [encChar (val / 262144 % 64), encChar (val / 4096 % 64), padChar, padChar]
  | [] => []

/-- The call `base64.StdEncoding.EncodeToString(b)`. -/
def EncodeToString (b : List Nat) : String := String.mk (encode b)

/-- The quantum loop of `Encoding.Decode` on input without line breaks: four
characters give three bytes; padding is accepted only in the last group, and
an incomplete group or a byte outside the alphabet is a `CorruptInputError`
(`none`). -/
def decodeQuanta : List Char → Option (List Nat)
  | [] => some []
  | c0 :: c1 :: c2 :: c3 :: rest =>
    match decChar c0, decChar c1 with
    | some s0, some s1 =>
      if c2 = padChar then
        if c3 = padChar ∧ rest = [] then
          let val := s0 * 262144 + s1 * 4096
          some [val / 65536 % 256]
        else none
      else
        match decChar c2 with
        | some s2 =>
          if c3 = padChar then
            if rest = [] then
              let val := s0 * 262144 + s1 * 4096 + s2 * 64
              some [val / 65536 % 256, val / 256 % 256]
            else none
          else
            match decChar c3 with
            | some s3 =>
              let val := s0 * 262144 + s1 * 4096 + s2 * 64 + s3
              match decodeQuanta rest with
              | some bs => some (val / 65536 % 256 :: val / 256 % 256 :: val % 256 :: bs)
              | none => none
            | none => none
        | none => none
    | _, _ => none
  | _ => none

/-- The call `base64.StdEncoding.DecodeString(s)`: carriage returns and line
feeds are skipped, the rest is decoded group by group. -/
def DecodeString (s : String) : Option (List Nat) :=
  decodeQuanta (s.toList.filter (fun c => c != '\r' && c != '\n'))

/-! ## `pkg/config/config.go` -/

/-- The struct `config.Message`. -/
structure Message where
  Code : Nat
  Message : String
  Error : String
  deriving DecidableEq, Repr

/-- The function `config.ApiError`; an `error` is represented by its text and
`none` is the nil error. -/
def ApiError (m : String) (code : Nat) (err : Option String) : Message :=
  let err := match err with
    | none => ""
    | some e => e
  { Code := code, Message := m, Error := err }

/-! ## The collaborators of the handlers -/

/-- The `*oauth2.Token` returned by the code exchange: `AccessToken` and the
lookup `token.Extra(key)`. -/
structure Token where
  AccessToken : String
  Extra : String → Value

/-- The verified `*oidc.IDToken`: the outcome of `idToken.Claims(&profile)`
with `profile` a `map[string]interface{}`; claim values are kept as text. -/
structure IDToken where
  Claims : Except String (List (String × String))

/-- The `*Authenticator` built by `NewAuthenticator`: `Config.AuthCodeURL`,
`Config.Exchange` and `Provider.Verifier(&oidc.Config{ClientID}).Verify`.
An error is represented by its text. -/
structure Authenticator where
  AuthCodeURL : String → String
  Exchange : String → Except String Token
  Verify : String → String → Except String IDToken

/-- Everything a handler of package `auth` reads from outside: the echo
context store (`c.Get`), the session store (`session.Get`, `sess.Save`),
`NewAuthenticator`, `os.Getenv` and `rand.Read` on a 32-byte buffer. -/
structure Env where
  Get : String → Value
  sessionGet : Except String Session
  Save : Session → Except String Unit
  NewAuthenticator : Except String Authenticator
  Getenv : String → String
  randRead : Except String (List Nat)

/-- A call with an effect outside the handler, the writes to the response
apart (those are followed by `Committed`).  `error err` is `c.Error(err)`. -/
inductive Event where
  | error (err : String) : Event
  | log (line : String) : Event
  | newAuthenticator : Event
  | exchange (code : String) : Event
  | verify (clientID rawIDToken : String) : Event
  | save (values : Session) : Event
  deriving DecidableEq, Repr

/-- Whether the event is a call to the identity provider's client. -/
def Event.isIdP : Event → Bool
  | .newAuthenticator => true
  | .exchange _ => true
  | .verify _ _ => true
  | _ => false

/-- Whether the event is a call of `sess.Save`. -/
def Event.isSave : Event → Bool
  | .save _ => true
  | _ => false

def StatusTemporaryRedirect : Nat := 307
def StatusBadRequest : Nat := 400
def StatusUnauthorized : Nat := 401
def StatusInternalServerError : Nat := 500
def StatusOK : Nat := 200

/-- A response call or the way a handler run ends: `c.NoContent(status)`,
`c.Redirect(status, url)`, `c.JSON(status, body)`, the response that echo's
`DefaultHTTPErrorHandler` sends (`status` with a JSON message), a returned
non-nil `error`, or a run-time panic. -/
inductive Response where
  | noContent (status : Nat) : Response
  | redirect (status : Nat) (url : String) : Response
  | json (status : Nat) (body : Message) : Response
  | httpError (status : Nat) : Response
  | err (text : String) : Response
  | panic : Response
  deriving DecidableEq, Repr

/-- The status line of a response; a returned error and a panic have none. -/
def Response.status : Response → Option Nat
  | .noContent status => some status
  | .redirect status _ => some status
  | .json status _ => some status
  | .httpError status => some status
  | .err _ => none
  | .panic => none

/-- The state of echo's `Response` during one request: the response that has
been committed, `none` as long as nothing was written. -/
abbrev Committed := Option Response

/-- The call `c.Error(err)`: echo's `Context.Error` runs the
`HTTPErrorHandler`.  The repository installs none, so it is echo's
`DefaultHTTPErrorHandler`: for an `err` that is not an `*echo.HTTPError` it
sends status 500, unless the response is committed already. -/
def Committed.Error (w : Committed) (_err : String) : Committed :=
  match w with
  | some r => some r
  | none => some (.httpError StatusInternalServerError)

/-- The call `c.NoContent(status)`: `Response.WriteHeader` writes nothing on
a committed response. -/
def Committed.NoContent (w : Committed) (status : Nat) : Committed :=
  match w with
  | some r => some r
  | none => some (.noContent status)

/-- The call `c.Redirect(status, url)`, with the same `WriteHeader`. -/
def Committed.Redirect (w : Committed) (status : Nat) (url : String) : Committed :=
  match w with
  | some r => some r
  | none => some (.redirect status url)

/-- The record of one handler run.  `resp` is the response call (or the
returned error, or the panic) the run ends with; `wire` is what the run has
committed on echo's `Response`, which starts uncommitted, when it ends;
`trace` are the other effects in call order; `sess` are the in-memory
`sess.Values` at the end (`none` when no session was loaded); `saved` are the
values of a `sess.Save` that returned without error. -/
structure Result where
  resp : Response
  wire : Committed
  trace : List Event
  sess : Option Session
  saved : Option Session
  deriving DecidableEq, Repr

/-- The status the client receives from the run, if the run wrote a
response. -/
def Result.status (r : Result) : Option Nat :=
  match r.wire with
  | some w => w.status
  | none => none

/-- The type `echo.HandlerFunc`. -/
abbrev HandlerFunc := Env → Result

/-! ## `pkg/auth/auth.go` -/

/-- The handler `Middleware(next)`. -/
def Middleware (next : HandlerFunc) : HandlerFunc := fun c =>
  match c.sessionGet with
  | .error err =>
    { resp := .noContent StatusInternalServerError, trace := [.error err],
      wire := Committed.NoContent (Committed.Error none err) StatusInternalServerError,
      sess := none, saved := none }
  | .ok sess =>
    if !sess.has "profile" then
      { resp := .err "user not logged in", wire := none, trace := [],
        sess := some sess, saved := none }
    else next c

/-- The handler returned by `LoginHandler()`. -/
def LoginHandler : HandlerFunc := fun c =>
  match c.randRead with
  | .error err =>
    { resp := .noContent StatusInternalServerError, trace := [.error err],
      wire := Committed.NoContent (Committed.Error none err) StatusInternalServerError,
      sess := none, saved := none }
  | .ok b =>
    let state := EncodeToString b
    match c.sessionGet with
    | .error err =>
      { resp := .noContent StatusInternalServerError, trace := [.error err],
        wire := Committed.NoContent (Committed.Error none err) StatusInternalServerError,
        sess := none, saved := none }
    | .ok sess =>
      let sess := sess.set "state" (.str state)
      match c.Save sess with
      | .error err =>
        { resp := .noContent StatusInternalServerError, trace := [.save sess, .error err],
          wire := Committed.NoContent (Committed.Error none err) StatusInternalServerError,
          sess := some sess, saved := none }
      | .ok _ =>
        match c.NewAuthenticator with
        | .error err =>
          { resp := .noContent StatusInternalServerError,
            trace := [.save sess, .newAuthenticator, .error err],
            wire := Committed.NoContent (Committed.Error none err) StatusInternalServerError,
            sess := some sess, saved := some sess }
        | .ok authenticator =>
          { resp := .redirect StatusTemporaryRedirect (authenticator.AuthCodeURL state),
            wire := Committed.Redirect none StatusTemporaryRedirect
              (authenticator.AuthCodeURL state),
            trace := [.save sess, .newAuthenticator],
            sess := some sess, saved := some sess }

/-- The handler returned by `Callback()`. -/
def Callback : HandlerFunc := fun c =>
  match c.sessionGet with
  | .error err =>
    { resp := .noContent StatusInternalServerError, trace := [.error err],
      wire := Committed.NoContent (Committed.Error none err) StatusInternalServerError,
      sess := none, saved := none }
  | .ok sess =>
    match ifaceEq (c.Get "state") (sess.get "state") with
    | none =>
      { resp := .panic, wire := none, trace := [], sess := some sess, saved := none }
    | some false =>
      { resp := .noContent StatusBadRequest,
        trace := [.error "state did not match with stored session value"],
        wire := Committed.NoContent (Committed.Error none "state did not match with stored session value") StatusBadRequest,
        sess := some sess, saved := none }
    | some true =>
      match c.NewAuthenticator with
      | .error err =>
        { resp := .noContent StatusInternalServerError, trace := [.newAuthenticator, .error err],
          wire := Committed.NoContent (Committed.Error none err) StatusInternalServerError,
          sess := some sess, saved := none }
      | .ok authenticator =>
        match c.Get "code" with
        | .str code =>
          match authenticator.Exchange code with
          | .error err =>
            { resp := .noContent StatusUnauthorized,
              trace := [.newAuthenticator, .exchange code, .log "No token found.", .error err],
              wire := Committed.NoContent (Committed.Error none err) StatusUnauthorized,
              sess := some sess, saved := none }
          | .ok token =>
            match token.Extra "id_token" with
            | .str rawIDToken =>
              let clientID := c.Getenv "STAPLE_CLIENT_ID"
              match authenticator.Verify clientID rawIDToken with
              | .error err =>
                { resp := .noContent StatusInternalServerError,
                  trace := [.newAuthenticator, .exchange code, .verify clientID rawIDToken,
                    .error err],
                  wire := Committed.NoContent (Committed.Error none err) StatusInternalServerError,
                  sess := some sess, saved := none }
              | .ok idToken =>
                match idToken.Claims with
                | .error err =>
                  { resp := .noContent StatusInternalServerError,
                    trace := [.newAuthenticator, .exchange code, .verify clientID rawIDToken,
                      .error err],
                    wire := Committed.NoContent (Committed.Error none err) StatusInternalServerError,
                    sess := some sess, saved := none }
                | .ok profile =>
                  let sess := sess.set "id_token" (.str rawIDToken)
                  let sess := sess.set "access_token" (.str token.AccessToken)
                  let sess := sess.set "profile" (.map profile)
                  match c.Save sess with
                  | .error err =>
                    { resp := .noContent StatusInternalServerError,
                      trace := [.newAuthenticator, .exchange code, .verify clientID rawIDToken,
                        .save sess, .error err],
                      wire := Committed.NoContent (Committed.Error none err) StatusInternalServerError,
                      sess := some sess, saved := none }
                  | .ok _ =>
                    { resp := .redirect StatusTemporaryRedirect "/staple",
                      wire := Committed.Redirect none StatusTemporaryRedirect "/staple",
                      trace := [.newAuthenticator, .exchange code, .verify clientID rawIDToken,
                        .save sess],
                      sess := some sess, saved := some sess }
            | _ =>
              { resp := .noContent StatusInternalServerError,
                trace := [.newAuthenticator, .exchange code,
                  .error "no id_token field in oauth2 token"],
                wire := Committed.NoContent (Committed.Error none "no id_token field in oauth2 token") StatusInternalServerError,
                sess := some sess, saved := none }
        | _ =>
          { resp := .panic, wire := none, trace := [.newAuthenticator],
            sess := some sess, saved := none }

/-! ## `strconv.Atoi` -/

/-- The two errors of `strconv`: `ErrSyntax` and `ErrRange`. -/
inductive NumErr where
  | invalid : NumErr
  | range : NumErr
  deriving DecidableEq, Repr

/-- The digit loop of `strconv.ParseUint(s, 10, 64)` with accumulator `n`. -/
def parseUintLoop : List Char → Nat → Except NumErr Nat
  | [], n => .ok n
  | c :: cs, n =>
    if '0' ≤ c ∧ c ≤ '9' then
      let d := c.toNat - '0'.toNat
      if n ≥ 18446744073709551615 / 10 + 1 then .error .range
      else
        let n1 := n * 10 + d
        if n1 > 18446744073709551615 then .error .range
        else parseUintLoop cs n1
    else .error .invalid

/-- The call `strconv.ParseUint(s, 10, 64)`. -/
def ParseUint (s : List Char) : Except NumErr Nat :=
  if s = [] then .error .invalid else parseUintLoop s 0

/-- The call `strconv.Atoi(s)` with a 64-bit `int`, as its general path
`ParseInt(s, 10, 0)` computes it (the fast path for short strings returns the
same value, and a syntax error on the same strings). -/
def Atoi (s : String) : Except NumErr Int :=
  match s.toList with
  | [] => .error .invalid
  | c :: cs =>
    let neg := decide (c = '-')
    let digits := if c = '+' ∨ c = '-' then cs else c :: cs
    match ParseUint digits with
    | .error .invalid => .error .invalid
    | .error .range => .error .range
    | .ok un =>
      if !neg ∧ un ≥ 9223372036854775808 then .error .range
      else if neg ∧ un > 9223372036854775808 then .error .range
      else .ok (if neg then -(un : Int) else (un : Int))

/-- The text of the `*strconv.NumError` returned by `Atoi(s)`, with
`strconv.Quote` given by `quote`. -/
def NumErr.Error (quote : String → String) (s : String) : NumErr → String
  | .invalid => "strconv.Atoi: parsing " ++ quote s ++ ": invalid syntax"
  | .range => "strconv.Atoi: parsing " ++ quote s ++ ": value out of range"

/-! ## `pkg/users.go`: `SetMaximumStaples` -/

/-- The struct `models.User`, with the fields that
`internal/storage/postgres_user_storage.go` reads and writes. -/
structure User where
  Email : String
  Password : String
  ConfirmCode : String
  MaxStaples : Int
  deriving DecidableEq, Repr

/-- The type `jwt.MapClaims`. -/
abbrev MapClaims := List (String × Value)

/-- Go's `claims[k]`. -/
def MapClaims.get (m : MapClaims) (k : String) : Value :=
  match m.lookup k with
  | some v => v
  | none => Value.nil

/-- The `*jwt.Token` returned by `GetToken`: `Claims` is `none` when its
dynamic type is not `jwt.MapClaims`. -/
structure JwtToken where
  Claims : Option MapClaims

/-- What the handlers of `pkg/users.go` read from outside: `GetToken(c)`,
`c.Bind(&maxStaples)` (the bound `max_staples` string),
`userHandler.SetMaximumStaples` (`none` is the nil error) and
`strconv.Quote`. -/
structure UserEnv where
  GetToken : Except String JwtToken
  Bind : Except String String
  SetMaximumStaples : User → Int → Option String
  Quote : String → String

/-- The record of one run of a handler of `pkg/users.go`: the response and
the calls of `userHandler.SetMaximumStaples` in order. -/
structure UserResult where
  resp : Response
  calls : List (User × Int)
  deriving DecidableEq, Repr

/-- The handler returned by `SetMaximumStaples(userHandler)`. -/
def SetMaximumStaples (c : UserEnv) : UserResult :=
  match c.GetToken with
  | .error err => { resp := .err err, calls := [] }
  | .ok token =>
    match token.Claims with
    | none => { resp := .panic, calls := [] }
    | some claims =>
      match claims.get "email" with
      | .str email =>
        let userModel : User := { Email := email, Password := "", ConfirmCode := "", MaxStaples := 0 }
        match c.Bind with
        | .error err => { resp := .err err, calls := [] }
        | .ok Staples =>
          match Atoi Staples with
          | .error err =>
            let apiError := ApiError "failed to convert staple to string" StatusBadRequest
              (some (err.Error c.Quote Staples))
            { resp := .json StatusBadRequest apiError, calls := [] }
          | .ok stapleCount =>
            if stapleCount ≤ 0 ∨ stapleCount > 100 then
              let apiError := ApiError "invalid staple setting" StatusBadRequest none
              { resp := .json StatusBadRequest apiError, calls := [] }
            else
              match c.SetMaximumStaples userModel stapleCount with
              | some _ =>
                let apiError := ApiError "failed to set maximum staples"
                  StatusInternalServerError none
                { resp := .json StatusInternalServerError apiError,
                  calls := [(userModel, stapleCount)] }
              | none => { resp := .noContent StatusOK, calls := [(userModel, stapleCount)] }
      | _ => { resp := .panic, calls := [] }

/-! ## Reading a run -/

/-- The values the session store holds for the client after a run, given the
values it held before: a `sess.Save` that returned without error replaces
them, anything else leaves them as they were. -/
def Result.persisted (r : Result) (before : Session) : Session :=
  match r.saved with
  | some s => s
  | none => before

/-- The session values `Callback` hands to `sess.Save`. -/
def finalValues (sess : Session) (rawIDToken accessToken : String)
    (profile : List (String × String)) : Session :=
  ((sess.set "id_token" (.str rawIDToken)).set "access_token" (.str accessToken)).set
    "profile" (.map profile)

/-- The run of `Callback` got past the state comparison: the session `sess`
was loaded and Go's `!=` on the received and the stored state was false. -/
def Callback.checked (c : Env) (sess : Session) : Prop :=
  c.sessionGet = .ok sess ∧ ifaceEq (c.Get "state") (sess.get "state") = some true

/-- The run of `Callback` got past the code exchange: the authenticator `a`
was built, the context holds the string `code` and the exchange returned
`token`. -/
def Callback.exchanged (c : Env) (sess : Session) (a : Authenticator) (code : String)
    (token : Token) : Prop :=
  Callback.checked c sess ∧ c.NewAuthenticator = .ok a ∧ c.Get "code" = .str code ∧
    a.Exchange code = .ok token

/-- The run of `Callback` got past the verification: the bundle holds the
string `raw` as `id_token` and the verifier returned `idToken` for it. -/
def Callback.verified (c : Env) (sess : Session) (a : Authenticator) (code : String)
    (token : Token) (raw : String) (idToken : IDToken) : Prop :=
  Callback.exchanged c sess a code token ∧ token.Extra "id_token" = .str raw ∧
    a.Verify (c.Getenv "STAPLE_CLIENT_ID") raw = .ok idToken

/-! ## Stub collaborators for concrete runs -/

/-- A token bundle with an `id_token` field. -/
def stubToken : Token :=
  { AccessToken := "at-1",
    Extra := fun k => if k = "id_token" then .str "raw-id-token" else .nil }

/-- An identity provider that accepts every code and every ID token and
returns the claims `sub = u1`, `email = a@b.com`. -/
def stubIdP : Authenticator :=
  { AuthCodeURL := fun state => "https://idp.example/authorize?state=" ++ state,
    Exchange := fun _ => .ok stubToken,
    Verify := fun _ _ => .ok { Claims := .ok [("sub", "u1"), ("email", "a@b.com")] } }

/-- An identity provider whose code exchange fails. -/
def exchangeFailsIdP : Authenticator :=
  { stubIdP with Exchange := fun _ => .error "oauth2: cannot fetch token: 400 Bad Request" }

/-- An identity provider whose ID-token verification fails. -/
def verifyFailsIdP : Authenticator :=
  { stubIdP with Verify := fun _ _ => .error "oidc: token is expired" }

/-- A request context holding `state` and `code`, a loaded session `sess`,
a session store that saves, and the stub identity provider. -/
def stubEnv (state code : Value) (sess : Session) : Env :=
  { Get := fun k => if k = "state" then state else if k = "code" then code else .nil,
    sessionGet := .ok sess,
    Save := fun _ => .ok (),
    NewAuthenticator := .ok stubIdP,
    Getenv := fun k => if k = "STAPLE_CLIENT_ID" then "client-1" else "",
    randRead := .ok (List.range 32) }

/-- A protected handler that answers 200. -/
def stubNext : HandlerFunc := fun _ =>
  { resp := .noContent StatusOK, wire := Committed.NoContent none StatusOK, trace := [],
    sess := none, saved := none }

/-- A user service environment: a token for `a@b.com`, the bound
`max_staples` string `body`, and a store that accepts every update. -/
def stubUserEnv (body : String) : UserEnv :=
  { GetToken := .ok { Claims := some [("email", .str "a@b.com")] },
    Bind := .ok body,
    SetMaximumStaples := fun _ _ => none,
    Quote := fun s => "\"" ++ s ++ "\"" }

/-- A callback carrying the stored state `S` whose ID token fails
verification. -/
def envVerifyFails : Env :=
  { stubEnv (.str "S") (.str "validcode123") [("state", .str "S")] with
    NewAuthenticator := .ok verifyFailsIdP }

/-- A callback carrying the stored state `S` whose code exchange fails. -/
def envExchangeFails : Env :=
  { stubEnv (.str "S") (.str "validcode123") [("state", .str "S")] with
    NewAuthenticator := .ok exchangeFailsIdP }

/-- A callback carrying the stored state `S` whose session cannot be saved. -/
def envSaveFails : Env :=
  { stubEnv (.str "S") (.str "validcode123") [("state", .str "S")] with
    Save := fun _ => .error "securecookie: the value is too long" }

/-- A callback carrying the state `wrong` against the stored state `S`. -/
def envMismatch : Env := stubEnv (.str "wrong") (.str "x") [("state", .str "S")]

/-- A callback with no `state` in the context, the code `x`, and a session
for which no login was started. -/
def envNoState : Env := stubEnv .nil (.str "x") []

/-- A callback carrying the stored state `S` and a valid code. -/
def envValid : Env := stubEnv (.str "S") (.str "validcode123") [("state", .str "S")]

/-- A second callback with the same state and code, against the session
that the run on `envValid` saved. -/
def envReplay : Env :=
  stubEnv (.str "S") (.str "validcode123")
    (finalValues [("state", .str "S")] "raw-id-token" "at-1" [("sub", "u1"), ("email", "a@b.com")])

/-! ## Base64 round trip -/

theorem encChar_props : ∀ n, n < 64 →
    decChar (encChar n) = some n ∧ encChar n ≠ padChar ∧
      ((encChar n != '\r' && encChar n != '\n') = true) := by
  decide

theorem decChar_encChar {n : Nat} (h : n < 64) : decChar (encChar n) = some n :=
  (encChar_props n h).1

theorem encChar_ne_pad {n : Nat} (h : n < 64) : encChar n ≠ padChar :=
  (encChar_props n h).2.1

theorem encChar_keep {n : Nat} (h : n < 64) :
    (encChar n != '\r' && encChar n != '\n') = true :=
  (encChar_props n h).2.2

theorem decodeQuanta_encode (b : List Nat) (hb : ∀ x ∈ b, x < 256) :
    decodeQuanta (encode b) = some b := by
  induction b using encode.induct with
  | case1 a b c rest ih =>
    have ha : a < 256 := hb a (by simp)
    have hb1 : b < 256 := hb b (by simp)
    have hc : c < 256 := hb c (by simp)
    have ih1 := ih (fun x hx => hb x (by simp [hx]))
    simp only [encode, decodeQuanta]
    rw [decChar_encChar (Nat.mod_lt _ (by norm_num)), decChar_encChar (Nat.mod_lt _ (by norm_num))]
    simp only [if_neg (encChar_ne_pad (n := (a * 65536 + b * 256 + c) / 64 % 64) (Nat.mod_lt _ (by norm_num))),
      if_neg (encChar_ne_pad (n := (a * 65536 + b * 256 + c) % 64) (Nat.mod_lt _ (by norm_num))),
      decChar_encChar (n := (a * 65536 + b * 256 + c) / 64 % 64) (Nat.mod_lt _ (by norm_num)),
      decChar_encChar (n := (a * 65536 + b * 256 + c) % 64) (Nat.mod_lt _ (by norm_num)), ih1]
    simp only [Option.some.injEq, List.cons.injEq, and_true]
    refine ⟨?_, ?_, ?_⟩ <;> omega
  | case2 a b =>
    have ha : a < 256 := hb a (by simp)
    have hb1 : b < 256 := hb b (by simp)
    simp only [encode, decodeQuanta]
    rw [decChar_encChar (Nat.mod_lt _ (by norm_num)), decChar_encChar (Nat.mod_lt _ (by norm_num))]
    simp only [if_neg (encChar_ne_pad (n := (a * 65536 + b * 256) / 64 % 64) (Nat.mod_lt _ (by norm_num))),
      decChar_encChar (n := (a * 65536 + b * 256) / 64 % 64) (Nat.mod_lt _ (by norm_num)), if_true]
    simp only [Option.some.injEq, List.cons.injEq, and_true]
    refine ⟨?_, ?_⟩ <;> omega
  | case3 a =>
    have ha : a < 256 := hb a (by simp)
    simp only [encode, decodeQuanta]
    rw [decChar_encChar (Nat.mod_lt _ (by norm_num)), decChar_encChar (Nat.mod_lt _ (by norm_num))]
    simp only [if_true, and_self, Option.some.injEq, List.cons.injEq, and_true]
    omega
  | case4 => simp [encode, decodeQuanta]

theorem encode_keep (b : List Nat) :
    ∀ ch ∈ encode b, (ch != '\r' && ch != '\n') = true := by
  induction b using encode.induct with
  | case1 a b c rest ih =>
    intro ch hch
    simp only [encode, List.mem_cons] at hch
    rcases hch with h | h | h | h | h
    · rw [h]; exact encChar_keep (Nat.mod_lt _ (by norm_num))
    · rw [h]; exact encChar_keep (Nat.mod_lt _ (by norm_num))
    · rw [h]; exact encChar_keep (Nat.mod_lt _ (by norm_num))
    · rw [h]; exact encChar_keep (Nat.mod_lt _ (by norm_num))
    · exact ih ch h
  | case2 a b =>
    intro ch hch
    simp only [encode, List.mem_cons, List.mem_singleton, List.not_mem_nil, or_false] at hch
    rcases hch with h | h | h | h
    · rw [h]; exact encChar_keep (Nat.mod_lt _ (by norm_num))
    · rw [h]; exact encChar_keep (Nat.mod_lt _ (by norm_num))
    · rw [h]; exact encChar_keep (Nat.mod_lt _ (by norm_num))
    · rw [h]; decide
  | case3 a =>
    intro ch hch
    simp only [encode, List.mem_cons, List.mem_singleton, List.not_mem_nil, or_false] at hch
    rcases hch with h | h | h | h
    · rw [h]; exact encChar_keep (Nat.mod_lt _ (by norm_num))
    · rw [h]; exact encChar_keep (Nat.mod_lt _ (by norm_num))
    · rw [h]; decide
    · rw [h]; decide
  | case4 => intro ch hch; simp [encode] at hch

/-- Decoding inverts encoding on every list of bytes. -/
theorem DecodeString_EncodeToString (b : List Nat) (hb : ∀ x ∈ b, x < 256) :
    DecodeString (EncodeToString b) = some b := by
  unfold DecodeString EncodeToString
  show decodeQuanta (List.filter (fun c => c != '\r' && c != '\n') (encode b)) = some b
  rw [List.filter_eq_self.mpr (encode_keep b)]
  exact decodeQuanta_encode b hb

/-- Distinct byte strings have distinct encodings. -/
theorem EncodeToString_injective (b b' : List Nat) (hb : ∀ x ∈ b, x < 256)
    (hb' : ∀ x ∈ b', x < 256) (h : EncodeToString b' = EncodeToString b) : b' = b := by
  have h1 := DecodeString_EncodeToString b hb
  have h2 := DecodeString_EncodeToString b' hb'
  rw [h, h1] at h2
  exact (Option.some.inj h2).symm

/-! ## Session values -/

theorem Session.get_set_self (s : Session) (k : String) (v : Value) :
    (s.set k v).get k = v := by
  simp [Session.get, Session.set, List.lookup]

theorem Session.has_set_self (s : Session) (k : String) (v : Value) :
    (s.set k v).has k = true := by
  simp [Session.has, Session.set, List.lookup]

theorem Session.lookup_filter_ne (s : Session) (k j : String) (h : j ≠ k) :
    (s.filter (fun p => p.1 != k)).lookup j = s.lookup j := by
  induction s with
  | nil => rfl
  | cons p s ih =>
    obtain ⟨a, v⟩ := p
    by_cases hak : a = k
    · subst hak
      have hja : (j == a) = false := by simpa using h
      simp [List.filter, List.lookup, hja, ih]
    · have hak1 : (a != k) = true := by simpa using hak
      simp only [List.filter, hak1, List.lookup]
      cases hja : (j == a) <;> simp [ih]

theorem Session.lookup_set_ne (s : Session) (k j : String) (v : Value) (h : j ≠ k) :
    (s.set k v).lookup j = s.lookup j := by
  have hjk : (j == k) = false := by simpa using h
  simp only [Session.set, List.lookup, hjk]
  exact Session.lookup_filter_ne s k j h

theorem Session.get_set_ne (s : Session) (k j : String) (v : Value) (h : j ≠ k) :
    (s.set k v).get j = s.get j := by
  simp only [Session.get, Session.lookup_set_ne s k j v h]

theorem Session.has_set_ne (s : Session) (k j : String) (v : Value) (h : j ≠ k) :
    (s.set k v).has j = s.has j := by
  simp only [Session.has, Session.lookup_set_ne s k j v h]

/-! ## Go's interface comparison -/

/-- The comparison yields "different" exactly on two different values that
are not both maps. -/
theorem ifaceEq_eq_some_false_iff (a b : Value) :
    ifaceEq a b = some false ↔ a ≠ b ∧ ifaceEq a b ≠ none := by
  cases a <;> cases b <;> simp [ifaceEq]

/-- The comparison yields "equal" only on equal values. -/
theorem ifaceEq_eq_some_true_iff (a b : Value) :
    ifaceEq a b = some true ↔ a = b ∧ ifaceEq a b ≠ none := by
  cases a <;> cases b <;> simp [ifaceEq]

/-- The comparison panics exactly when both values are maps. -/
theorem ifaceEq_eq_none_iff (a b : Value) :
    ifaceEq a b = none ↔ ∃ m n, a = .map m ∧ b = .map n := by
  cases a <;> cases b <;> simp [ifaceEq]

/-! ## Shape of the runs of `Callback` -/

/-- Every run of `Callback` is one of eleven records, one for each place
where the handler returns. -/
theorem Callback_cases (c : Env) :
    (∃ e, c.sessionGet = .error e ∧
      Callback c = { resp := .noContent 500, wire := some (.httpError 500), trace := [.error e], sess := none, saved := none }) ∨
    (∃ sess, c.sessionGet = .ok sess ∧
      ifaceEq (c.Get "state") (sess.get "state") = none ∧
      Callback c = { resp := .panic, wire := none, trace := [], sess := some sess, saved := none }) ∨
    (∃ sess, c.sessionGet = .ok sess ∧
      ifaceEq (c.Get "state") (sess.get "state") = some false ∧
      Callback c = { resp := .noContent 400, wire := some (.httpError 500),
                     trace := [.error "state did not match with stored session value"],
                     sess := some sess, saved := none }) ∨
    (∃ sess e, Callback.checked c sess ∧ c.NewAuthenticator = .error e ∧
      Callback c = { resp := .noContent 500, wire := some (.httpError 500), trace := [.newAuthenticator, .error e],
                     sess := some sess, saved := none }) ∨
    (∃ sess a, Callback.checked c sess ∧ c.NewAuthenticator = .ok a ∧
      (∀ code, c.Get "code" ≠ .str code) ∧
      Callback c = { resp := .panic, wire := none, trace := [.newAuthenticator],
                     sess := some sess, saved := none }) ∨
    (∃ sess a code e, Callback.checked c sess ∧ c.NewAuthenticator = .ok a ∧
      c.Get "code" = .str code ∧ a.Exchange code = .error e ∧
      Callback c = { resp := .noContent 401, wire := some (.httpError 500),
                     trace := [.newAuthenticator, .exchange code, .log "No token found.",
                       .error e],
                     sess := some sess, saved := none }) ∨
    (∃ sess a code token, Callback.exchanged c sess a code token ∧
      (∀ raw, token.Extra "id_token" ≠ .str raw) ∧
      Callback c = { resp := .noContent 500, wire := some (.httpError 500),
                     trace := [.newAuthenticator, .exchange code,
                       .error "no id_token field in oauth2 token"],
                     sess := some sess, saved := none }) ∨
    (∃ sess a code token raw e, Callback.exchanged c sess a code token ∧
      token.Extra "id_token" = .str raw ∧
      a.Verify (c.Getenv "STAPLE_CLIENT_ID") raw = .error e ∧
      Callback c = { resp := .noContent 500, wire := some (.httpError 500),
                     trace := [.newAuthenticator, .exchange code,
                       .verify (c.Getenv "STAPLE_CLIENT_ID") raw, .error e],
                     sess := some sess, saved := none }) ∨
    (∃ sess a code token raw idToken e, Callback.verified c sess a code token raw idToken ∧
      idToken.Claims = .error e ∧
      Callback c = { resp := .noContent 500, wire := some (.httpError 500),
                     trace := [.newAuthenticator, .exchange code,
                       .verify (c.Getenv "STAPLE_CLIENT_ID") raw, .error e],
                     sess := some sess, saved := none }) ∨
    (∃ sess a code token raw idToken profile e,
      Callback.verified c sess a code token raw idToken ∧ idToken.Claims = .ok profile ∧
      c.Save (finalValues sess raw token.AccessToken profile) = .error e ∧
      Callback c = { resp := .noContent 500, wire := some (.httpError 500),
                     trace := [.newAuthenticator, .exchange code,
                       .verify (c.Getenv "STAPLE_CLIENT_ID") raw,
                       .save (finalValues sess raw token.AccessToken profile), .error e],
                     sess := some (finalValues sess raw token.AccessToken profile),
                     saved := none }) ∨
    (∃ sess a code token raw idToken profile,
      Callback.verified c sess a code token raw idToken ∧ idToken.Claims = .ok profile ∧
      c.Save (finalValues sess raw token.AccessToken profile) = .ok () ∧
      Callback c = { resp := .redirect 307 "/staple",
                     wire := some (.redirect 307 "/staple"),
                     trace := [.newAuthenticator, .exchange code,
                       .verify (c.Getenv "STAPLE_CLIENT_ID") raw,
                       .save (finalValues sess raw token.AccessToken profile)],
                     sess := some (finalValues sess raw token.AccessToken profile),
                     saved := some (finalValues sess raw token.AccessToken profile) }) := by
  cases hsg : c.sessionGet with
  | error e =>
    exact Or.inl ⟨e, rfl, by simp [Callback, Committed.Error, Committed.NoContent, Committed.Redirect, StatusInternalServerError, hsg, StatusInternalServerError]⟩
  | ok sess =>
    right
    cases hcmp : ifaceEq (c.Get "state") (sess.get "state") with
    | none => exact Or.inl ⟨sess, rfl, hcmp, by simp [Callback, Committed.Error, Committed.NoContent, Committed.Redirect, StatusInternalServerError, hsg, hcmp]⟩
    | some eq =>
      right
      cases eq with
      | false =>
        exact Or.inl ⟨sess, rfl, hcmp, by simp [Callback, Committed.Error, Committed.NoContent, Committed.Redirect, StatusInternalServerError, hsg, hcmp, StatusBadRequest]⟩
      | true =>
        right
        have hck : Callback.checked c sess := ⟨hsg, hcmp⟩
        cases hna : c.NewAuthenticator with
        | error e =>
          exact Or.inl ⟨sess, e, hck, rfl,
            by simp [Callback, Committed.Error, Committed.NoContent, Committed.Redirect, StatusInternalServerError, hsg, hcmp, hna, StatusInternalServerError]⟩
        | ok a =>
          right
          by_cases hcode : ∃ code, c.Get "code" = .str code
          · obtain ⟨code, hcode⟩ := hcode
            right
            cases hex : a.Exchange code with
            | error e =>
              exact Or.inl ⟨sess, a, code, e, hck, rfl, hcode, hex,
                by simp [Callback, Committed.Error, Committed.NoContent, Committed.Redirect, StatusInternalServerError, hsg, hcmp, hna, hcode, hex, StatusUnauthorized]⟩
            | ok token =>
              right
              have hexd : Callback.exchanged c sess a code token := ⟨hck, hna, hcode, hex⟩
              by_cases hraw : ∃ raw, token.Extra "id_token" = .str raw
              · obtain ⟨raw, hraw⟩ := hraw
                right
                cases hv : a.Verify (c.Getenv "STAPLE_CLIENT_ID") raw with
                | error e =>
                  exact Or.inl ⟨sess, a, code, token, raw, e, hexd, hraw, hv,
                    by simp [Callback, Committed.Error, Committed.NoContent, Committed.Redirect, StatusInternalServerError, hsg, hcmp, hna, hcode, hex, hraw, hv,
                      StatusInternalServerError]⟩
                | ok idToken =>
                  right
                  have hvd : Callback.verified c sess a code token raw idToken :=
                    ⟨hexd, hraw, hv⟩
                  cases hcl : idToken.Claims with
                  | error e =>
                    exact Or.inl ⟨sess, a, code, token, raw, idToken, e, hvd, hcl,
                      by simp [Callback, Committed.Error, Committed.NoContent, Committed.Redirect, StatusInternalServerError, hsg, hcmp, hna, hcode, hex, hraw, hv, hcl,
                        StatusInternalServerError]⟩
                  | ok profile =>
                    right
                    cases hsave : c.Save (finalValues sess raw token.AccessToken profile) with
                    | error e =>
                      have hsave1 := hsave
                      simp only [finalValues] at hsave1
                      exact Or.inl ⟨sess, a, code, token, raw, idToken, profile, e, hvd, hcl,
                        hsave, by simp [Callback, Committed.Error, Committed.NoContent, Committed.Redirect, StatusInternalServerError, hsg, hcmp, hna, hcode, hex, hraw, hv, hcl,
                          hsave1, finalValues, StatusInternalServerError]⟩
                    | ok u =>
                      have hsave1 := hsave
                      simp only [finalValues] at hsave1
                      exact Or.inr ⟨sess, a, code, token, raw, idToken, profile, hvd, hcl,
                        hsave, by simp [Callback, Committed.Error, Committed.NoContent, Committed.Redirect, StatusInternalServerError, hsg, hcmp, hna, hcode, hex, hraw, hv, hcl,
                          hsave1, finalValues, StatusTemporaryRedirect]⟩
              · left
                refine ⟨sess, a, code, token, hexd, fun raw h => hraw ⟨raw, h⟩, ?_⟩
                cases hx : token.Extra "id_token" with
                | str raw => exact absurd ⟨raw, hx⟩ hraw
                | nil => simp [Callback, Committed.Error, Committed.NoContent, Committed.Redirect, StatusInternalServerError, hsg, hcmp, hna, hcode, hex, hx, StatusInternalServerError]
                | int n => simp [Callback, Committed.Error, Committed.NoContent, Committed.Redirect, StatusInternalServerError, hsg, hcmp, hna, hcode, hex, hx, StatusInternalServerError]
                | map m => simp [Callback, Committed.Error, Committed.NoContent, Committed.Redirect, StatusInternalServerError, hsg, hcmp, hna, hcode, hex, hx, StatusInternalServerError]
          · left
            refine ⟨sess, a, hck, rfl, fun code h => hcode ⟨code, h⟩, ?_⟩
            cases hx : c.Get "code" with
            | str code => exact absurd ⟨code, hx⟩ hcode
            | nil => simp [Callback, Committed.Error, Committed.NoContent, Committed.Redirect, StatusInternalServerError, hsg, hcmp, hna, hx]
            | int n => simp [Callback, Committed.Error, Committed.NoContent, Committed.Redirect, StatusInternalServerError, hsg, hcmp, hna, hx]
            | map m => simp [Callback, Committed.Error, Committed.NoContent, Committed.Redirect, StatusInternalServerError, hsg, hcmp, hna, hx]

theorem finalValues_get (sess : Session) (raw at1 : String) (p : List (String × String)) :
    (finalValues sess raw at1 p).get "id_token" = .str raw ∧
    (finalValues sess raw at1 p).get "access_token" = .str at1 ∧
    (finalValues sess raw at1 p).get "profile" = .map p := by
  refine ⟨?_, ?_, ?_⟩
  · unfold finalValues
    rw [Session.get_set_ne _ _ _ _ (by decide), Session.get_set_ne _ _ _ _ (by decide),
      Session.get_set_self]
  · unfold finalValues
    rw [Session.get_set_ne _ _ _ _ (by decide), Session.get_set_self]
  · unfold finalValues
    rw [Session.get_set_self]

theorem finalValues_lookup_other (sess : Session) (raw at1 : String) (p : List (String × String))
    (k : String) (h1 : k ≠ "id_token") (h2 : k ≠ "access_token") (h3 : k ≠ "profile") :
    (finalValues sess raw at1 p).lookup k = sess.lookup k := by
  unfold finalValues
  rw [Session.lookup_set_ne _ _ _ _ h3, Session.lookup_set_ne _ _ _ _ h2,
    Session.lookup_set_ne _ _ _ _ h1]

/-! ## Claims about `Callback` -/

/-- The run of `Callback` on a state mismatch: with the session loaded and
the received state different from the stored one (and not both of them maps,
which Go cannot compare), the handler calls `c.Error`, which commits 500,
then `c.NoContent(400)`, which no longer writes; nothing else is called, the
session values are the loaded ones and nothing is saved. -/
theorem Callback_mismatch_run (c : Env) (sess : Session)
    (hload : c.sessionGet = .ok sess)
    (hne : c.Get "state" ≠ sess.get "state")
    (hcmp : ifaceEq (c.Get "state") (sess.get "state") ≠ none) :
    Callback c =
      { resp := .noContent 400, wire := some (.httpError 500),
        trace := [.error "state did not match with stored session value"],
        sess := some sess, saved := none } := by
  have h := (ifaceEq_eq_some_false_iff _ _).mpr ⟨hne, hcmp⟩
  simp [Callback, Committed.Error, Committed.NoContent, hload, h, StatusBadRequest,
    StatusInternalServerError]

/-- Every run of `Callback` that called `c.Error` has committed the 500 of
the error handler, whatever status it passed to `c.NoContent` afterwards. -/
theorem Callback_wire_after_error (c : Env) (e : String)
    (h : Event.error e ∈ (Callback c).trace) :
    (Callback c).wire = some (.httpError 500) ∧ (Callback c).status = some 500 := by
  rcases Callback_cases c with h0 | h0 | h0 | h0 | h0 | h0 | h0 | h0 | h0 | h0 | h0
  · obtain ⟨e1, _, hr⟩ := h0
    simp [hr, Result.status, Response.status]
  · obtain ⟨sess, _, _, hr⟩ := h0
    simp [hr] at h
  · obtain ⟨sess, _, _, hr⟩ := h0
    simp [hr, Result.status, Response.status]
  · obtain ⟨sess, e1, _, _, hr⟩ := h0
    simp [hr, Result.status, Response.status]
  · obtain ⟨sess, a, _, _, _, hr⟩ := h0
    simp [hr] at h
  · obtain ⟨sess, a, code, e1, _, _, _, _, hr⟩ := h0
    simp [hr, Result.status, Response.status]
  · obtain ⟨sess, a, code, token, _, _, hr⟩ := h0
    simp [hr, Result.status, Response.status]
  · obtain ⟨sess, a, code, token, raw, e1, _, _, _, hr⟩ := h0
    simp [hr, Result.status, Response.status]
  · obtain ⟨sess, a, code, token, raw, idToken, e1, _, _, hr⟩ := h0
    simp [hr, Result.status, Response.status]
  · obtain ⟨sess, a, code, token, raw, idToken, profile, e1, _, _, _, hr⟩ := h0
    simp [hr, Result.status, Response.status]
  · obtain ⟨sess, a, code, token, raw, idToken, profile, _, _, _, hr⟩ := h0
    simp [hr] at h

/-- C1, the run that breaks it: the callback carries the state `wrong`, the
session holds `S`.  The handler makes no call to the identity provider and
no save and leaves the session values as loaded, and it ends with
`c.NoContent(400)`; but the `c.Error` before it has committed the response,
so the status on the wire is 500, not 400. -/
theorem Callback_mismatch_answers_500 :
    envMismatch.sessionGet = .ok [("state", .str "S")] ∧
    envMismatch.Get "state" = .str "wrong" ∧
    (Callback envMismatch).trace =
      [.error "state did not match with stored session value"] ∧
    (Callback envMismatch).sess = some [("state", .str "S")] ∧
    (Callback envMismatch).saved = none ∧
    (Callback envMismatch).resp = .noContent 400 ∧
    (Callback envMismatch).wire = some (.httpError 500) ∧
    (Callback envMismatch).status = some 500 ∧
    (Callback envMismatch).status ≠ some 400 := by
  refine ⟨rfl, rfl, ?_, ?_, ?_, ?_, ?_, ?_, ?_⟩ <;> decide

/-- C2, the run that breaks it: the session holds no `state` entry and the
context holds no `state` either, so Go compares nil with nil, the check
passes, the code `x` is exchanged and the run ends in the success redirect
with a `profile` saved. -/
theorem Callback_no_state_succeeds :
    envNoState.sessionGet = .ok [] ∧
    Session.has [] "state" = false ∧
    envNoState.Get "state" = .nil ∧
    (Callback envNoState).resp = .redirect 307 "/staple" ∧
    Event.exchange "x" ∈ (Callback envNoState).trace ∧
    (Callback envNoState).saved =
      some (finalValues [] "raw-id-token" "at-1" [("sub", "u1"), ("email", "a@b.com")]) ∧
    (finalValues [] "raw-id-token" "at-1" [("sub", "u1"), ("email", "a@b.com")]).has "profile"
      = true := by
  refine ⟨rfl, rfl, rfl, ?_, ?_, ?_, ?_⟩ <;> decide

/-- C3: a run of `Callback` that does not end in the success redirect
persists nothing: no `sess.Save` returned without error, so the values the
store holds are the ones it held before and a `profile` entry in them was
there before; and unless `sess.Save` was called (and failed), the in-memory
values are the loaded ones as well. -/
theorem Callback_all_or_nothing (c : Env)
    (hfail : (Callback c).resp ≠ .redirect 307 "/staple") :
    (Callback c).saved = none ∧
    (∀ before, (Callback c).persisted before = before) ∧
    (∀ before, ((Callback c).persisted before).has "profile" = true →
      before.has "profile" = true) ∧
    ((∀ s, Event.save s ∉ (Callback c).trace) →
      ∀ sess, c.sessionGet = .ok sess → (Callback c).sess = some sess) := by
  have key : (Callback c).saved = none ∧
      ((∀ s, Event.save s ∉ (Callback c).trace) →
        ∀ sess, c.sessionGet = .ok sess → (Callback c).sess = some sess) := by
    rcases Callback_cases c with h | h | h | h | h | h | h | h | h | h | h
    · obtain ⟨e, h1, hr⟩ := h
      simp [hr, h1]
    · obtain ⟨sess, h1, _, hr⟩ := h
      simp [hr, h1]
    · obtain ⟨sess, h1, _, hr⟩ := h
      simp [hr, h1]
    · obtain ⟨sess, e, ⟨h1, _⟩, _, hr⟩ := h
      simp [hr, h1]
    · obtain ⟨sess, a, ⟨h1, _⟩, _, _, hr⟩ := h
      simp [hr, h1]
    · obtain ⟨sess, a, code, e, ⟨h1, _⟩, _, _, _, hr⟩ := h
      simp [hr, h1]
    · obtain ⟨sess, a, code, token, ⟨⟨h1, _⟩, _⟩, _, hr⟩ := h
      simp [hr, h1]
    · obtain ⟨sess, a, code, token, raw, e, ⟨⟨h1, _⟩, _⟩, _, _, hr⟩ := h
      simp [hr, h1]
    · obtain ⟨sess, a, code, token, raw, idToken, e, ⟨⟨⟨h1, _⟩, _⟩, _⟩, _, hr⟩ := h
      simp [hr, h1]
    · obtain ⟨sess, a, code, token, raw, idToken, profile, e, _, _, _, hr⟩ := h
      simp [hr]
    · obtain ⟨sess, a, code, token, raw, idToken, profile, _, _, _, hr⟩ := h
      simp [hr] at hfail
  refine ⟨key.1, ?_, ?_, key.2⟩
  · intro before
    simp [Result.persisted, key.1]
  · intro before
    simp [Result.persisted, key.1]

/-- A callback whose code exchange fails. -/
theorem Callback_all_or_nothing_witness :
    (Callback envExchangeFails).saved = none ∧
    (∀ before, (Callback envExchangeFails).persisted before = before) ∧
    (∀ before, ((Callback envExchangeFails).persisted before).has "profile" = true →
      before.has "profile" = true) ∧
    ((∀ s, Event.save s ∉ (Callback envExchangeFails).trace) →
      ∀ sess, envExchangeFails.sessionGet = .ok sess →
        (Callback envExchangeFails).sess = some sess) :=
  Callback_all_or_nothing envExchangeFails (by decide)

/-- C4: a run of `Callback` that ends in the success redirect exchanged the
code, verified the ID token of the bundle, extracted its claims and saved the
session, in this order, and the saved values hold `id_token` = the raw ID
token of the bundle, `access_token` = the bundle's access token and
`profile` = the extracted claims, every other key being as loaded. -/
theorem Callback_success (c : Env)
    (h : (Callback c).resp = .redirect 307 "/staple") :
    ∃ sess a code token raw idToken profile saved,
      c.sessionGet = .ok sess ∧ c.NewAuthenticator = .ok a ∧ c.Get "code" = .str code ∧
      a.Exchange code = .ok token ∧
      token.Extra "id_token" = .str raw ∧
      a.Verify (c.Getenv "STAPLE_CLIENT_ID") raw = .ok idToken ∧
      idToken.Claims = .ok profile ∧
      c.Save saved = .ok () ∧
      (Callback c).saved = some saved ∧
      saved.get "id_token" = .str raw ∧
      saved.get "access_token" = .str token.AccessToken ∧
      saved.get "profile" = .map profile ∧
      (∀ k, k ≠ "id_token" → k ≠ "access_token" → k ≠ "profile" → saved.get k = sess.get k) ∧
      (Callback c).trace =
        [.newAuthenticator, .exchange code, .verify (c.Getenv "STAPLE_CLIENT_ID") raw,
          .save saved] := by
  rcases Callback_cases c with h0 | h0 | h0 | h0 | h0 | h0 | h0 | h0 | h0 | h0 | h0
  · obtain ⟨e, _, hr⟩ := h0
    simp [hr] at h
  · obtain ⟨sess, _, _, hr⟩ := h0
    simp [hr] at h
  · obtain ⟨sess, _, _, hr⟩ := h0
    simp [hr] at h
  · obtain ⟨sess, e, _, _, hr⟩ := h0
    simp [hr] at h
  · obtain ⟨sess, a, _, _, _, hr⟩ := h0
    simp [hr] at h
  · obtain ⟨sess, a, code, e, _, _, _, _, hr⟩ := h0
    simp [hr] at h
  · obtain ⟨sess, a, code, token, _, _, hr⟩ := h0
    simp [hr] at h
  · obtain ⟨sess, a, code, token, raw, e, _, _, _, hr⟩ := h0
    simp [hr] at h
  · obtain ⟨sess, a, code, token, raw, idToken, e, _, _, hr⟩ := h0
    simp [hr] at h
  · obtain ⟨sess, a, code, token, raw, idToken, profile, e, _, _, _, hr⟩ := h0
    simp [hr] at h
  · obtain ⟨sess, a, code, token, raw, idToken, profile,
      ⟨⟨⟨hsg, _⟩, hna, hcode, hex⟩, hraw, hv⟩, hcl, hsave, hr⟩ := h0
    have hg := finalValues_get sess raw token.AccessToken profile
    refine ⟨sess, a, code, token, raw, idToken, profile,
      finalValues sess raw token.AccessToken profile,
      hsg, hna, hcode, hex, hraw, hv, hcl, hsave, by rw [hr], hg.1, hg.2.1, hg.2.2, ?_,
      by rw [hr]⟩
    intro k h1 h2 h3
    simp only [Session.get, finalValues_lookup_other sess raw token.AccessToken profile k h1 h2 h3]

/-- The callback with state `S` and code `validcode123` against the stub provider. -/
theorem Callback_success_witness :
    ∃ sess a code token raw idToken profile saved,
      envValid.sessionGet = .ok sess ∧ envValid.NewAuthenticator = .ok a ∧
      envValid.Get "code" = .str code ∧
      a.Exchange code = .ok token ∧
      token.Extra "id_token" = .str raw ∧
      a.Verify (envValid.Getenv "STAPLE_CLIENT_ID") raw = .ok idToken ∧
      idToken.Claims = .ok profile ∧
      envValid.Save saved = .ok () ∧
      (Callback envValid).saved = some saved ∧
      saved.get "id_token" = .str raw ∧
      saved.get "access_token" = .str token.AccessToken ∧
      saved.get "profile" = .map profile ∧
      (∀ k, k ≠ "id_token" → k ≠ "access_token" → k ≠ "profile" → saved.get k = sess.get k) ∧
      (Callback envValid).trace =
        [.newAuthenticator, .exchange code, .verify (envValid.Getenv "STAPLE_CLIENT_ID") raw,
          .save saved] :=
  Callback_success envValid (by decide)

/-- A run of `Callback` answers 400 only after a loaded session whose stored
state Go's `!=` found different from the received one. -/
theorem Callback_badRequest_inv (c : Env) (h : (Callback c).resp = .noContent 400) :
    ∃ sess, c.sessionGet = .ok sess ∧
      ifaceEq (c.Get "state") (sess.get "state") = some false := by
  rcases Callback_cases c with h0 | h0 | h0 | h0 | h0 | h0 | h0 | h0 | h0 | h0 | h0
  · obtain ⟨e, _, hr⟩ := h0
    simp [hr] at h
  · obtain ⟨sess, _, _, hr⟩ := h0
    simp [hr] at h
  · obtain ⟨sess, h1, h2, _⟩ := h0
    exact ⟨sess, h1, h2⟩
  · obtain ⟨sess, e, _, _, hr⟩ := h0
    simp [hr] at h
  · obtain ⟨sess, a, _, _, _, hr⟩ := h0
    simp [hr] at h
  · obtain ⟨sess, a, code, e, _, _, _, _, hr⟩ := h0
    simp [hr] at h
  · obtain ⟨sess, a, code, token, _, _, hr⟩ := h0
    simp [hr] at h
  · obtain ⟨sess, a, code, token, raw, e, _, _, _, hr⟩ := h0
    simp [hr] at h
  · obtain ⟨sess, a, code, token, raw, idToken, e, _, _, hr⟩ := h0
    simp [hr] at h
  · obtain ⟨sess, a, code, token, raw, idToken, profile, e, _, _, _, hr⟩ := h0
    simp [hr] at h
  · obtain ⟨sess, a, code, token, raw, idToken, profile, _, _, _, hr⟩ := h0
    simp [hr] at h

/-- A session without a `state` key takes every callback that carries some
state down the mismatch path: the comparison of a non-nil value with nil is
"different", the run ends with `c.NoContent(400)` after `c.Error` and
nothing is saved. -/
theorem Callback_no_state_rejects (c : Env) (sess : Session)
    (hload : c.sessionGet = .ok sess) (hno : sess.has "state" = false)
    (hsome : c.Get "state" ≠ .nil) :
    (Callback c).resp = .noContent 400 ∧ (Callback c).status = some 500 ∧
      (Callback c).saved = none := by
  have hnil : sess.get "state" = .nil := by
    unfold Session.has at hno
    unfold Session.get
    cases hl : List.lookup "state" sess with
    | none => rfl
    | some v => simp [hl] at hno
  have hf : ifaceEq (c.Get "state") (sess.get "state") = some false := by
    rw [hnil]
    cases hg : c.Get "state" with
    | nil => exact absurd hg hsome
    | str a => rfl
    | int n => rfl
    | map m => rfl
  simp [Callback, Committed.Error, Committed.NoContent, Result.status, Response.status,
    hload, hf, StatusBadRequest, StatusInternalServerError]

/-- C5, as stated, fails: the run on `envValid` ends in the success redirect,
the session it saves still holds `state` = `S`, and a second callback with
the same state against the saved session ends in the success redirect too. -/
theorem Callback_state_not_cleared :
    (Callback envValid).resp = .redirect 307 "/staple" ∧
    (Callback envValid).saved =
      some (finalValues [("state", .str "S")] "raw-id-token" "at-1"
        [("sub", "u1"), ("email", "a@b.com")]) ∧
    (finalValues [("state", .str "S")] "raw-id-token" "at-1"
        [("sub", "u1"), ("email", "a@b.com")]).get "state" = .str "S" ∧
    envReplay.sessionGet =
      .ok (finalValues [("state", .str "S")] "raw-id-token" "at-1"
        [("sub", "u1"), ("email", "a@b.com")]) ∧
    envReplay.Get "state" = envValid.Get "state" ∧
    (Callback envReplay).resp = .redirect 307 "/staple" ∧
    (Callback envReplay).resp ≠ .noContent 400 := by
  refine ⟨?_, ?_, ?_, ?_, ?_, ?_, ?_⟩ <;> first | rfl | decide

/-- C5, amended: a run of `Callback` that ends in the success redirect saves
a session whose `state` entry is the loaded one, present or absent alike, and
no later callback that carries the same state against the saved session is
answered 400. -/
theorem Callback_state_kept (c : Env)
    (h : (Callback c).resp = .redirect 307 "/staple") :
    ∃ sess saved, c.sessionGet = .ok sess ∧ (Callback c).saved = some saved ∧
      saved.get "state" = sess.get "state" ∧
      saved.has "state" = sess.has "state" ∧
      ∀ c2 : Env, c2.Get "state" = c.Get "state" → c2.sessionGet = .ok saved →
        (Callback c2).resp ≠ .noContent 400 := by
  rcases Callback_cases c with h0 | h0 | h0 | h0 | h0 | h0 | h0 | h0 | h0 | h0 | h0
  · obtain ⟨e, _, hr⟩ := h0
    simp [hr] at h
  · obtain ⟨sess, _, _, hr⟩ := h0
    simp [hr] at h
  · obtain ⟨sess, _, _, hr⟩ := h0
    simp [hr] at h
  · obtain ⟨sess, e, _, _, hr⟩ := h0
    simp [hr] at h
  · obtain ⟨sess, a, _, _, _, hr⟩ := h0
    simp [hr] at h
  · obtain ⟨sess, a, code, e, _, _, _, _, hr⟩ := h0
    simp [hr] at h
  · obtain ⟨sess, a, code, token, _, _, hr⟩ := h0
    simp [hr] at h
  · obtain ⟨sess, a, code, token, raw, e, _, _, _, hr⟩ := h0
    simp [hr] at h
  · obtain ⟨sess, a, code, token, raw, idToken, e, _, _, hr⟩ := h0
    simp [hr] at h
  · obtain ⟨sess, a, code, token, raw, idToken, profile, e, _, _, _, hr⟩ := h0
    simp [hr] at h
  · obtain ⟨sess, a, code, token, raw, idToken, profile, ⟨⟨⟨hsg, hcmp⟩, _⟩, _⟩, _, _, hr⟩ := h0
    have hl := finalValues_lookup_other sess raw token.AccessToken profile "state"
      (by decide) (by decide) (by decide)
    have hget : (finalValues sess raw token.AccessToken profile).get "state"
        = sess.get "state" := by
      simp only [Session.get, hl]
    refine ⟨sess, finalValues sess raw token.AccessToken profile, hsg, by rw [hr], hget,
      by simp only [Session.has, hl], ?_⟩
    intro c2 hst hsg2 h400
    obtain ⟨s2, hs2, hcmp2⟩ := Callback_badRequest_inv c2 h400
    rw [hsg2] at hs2
    cases hs2
    rw [hst, hget, hcmp] at hcmp2
    cases hcmp2

/-- The successful callback on state `S`. -/
theorem Callback_state_kept_witness :
    ∃ sess saved, envValid.sessionGet = .ok sess ∧ (Callback envValid).saved = some saved ∧
      saved.get "state" = sess.get "state" ∧
      saved.has "state" = sess.has "state" ∧
      ∀ c2 : Env, c2.Get "state" = envValid.Get "state" → c2.sessionGet = .ok saved →
        (Callback c2).resp ≠ .noContent 400 :=
  Callback_state_kept envValid (by decide)

/-- C8, as stated, fails: when the ID-token verification fails, `Callback`
calls `c.Error` and `c.NoContent(500)`, and the status on the wire is 500,
not 401. -/
theorem Callback_verify_failure_status :
    (Callback envVerifyFails).trace =
      [.newAuthenticator, .exchange "validcode123", .verify "client-1" "raw-id-token",
        .error "oidc: token is expired"] ∧
    (Callback envVerifyFails).resp = .noContent 500 ∧
    (Callback envVerifyFails).wire = some (.httpError 500) ∧
    (Callback envVerifyFails).status = some 500 ∧
    (Callback envVerifyFails).status ≠ some 401 := by
  refine ⟨?_, ?_, ?_, ?_, ?_⟩ <;> decide

/-- C8, amended: the status that `Callback` puts on the wire is 500 when the
session cannot be loaded, 500 when the ID-token verification fails and 500
when the session cannot be saved. -/
theorem Callback_failure_status (c : Env) :
    (∀ e, c.sessionGet = .error e → (Callback c).status = some 500) ∧
    (∀ sess a code token raw e, Callback.exchanged c sess a code token →
      token.Extra "id_token" = .str raw →
      a.Verify (c.Getenv "STAPLE_CLIENT_ID") raw = .error e →
      (Callback c).status = some 500) ∧
    (∀ sess a code token raw idToken profile e,
      Callback.verified c sess a code token raw idToken → idToken.Claims = .ok profile →
      c.Save (finalValues sess raw token.AccessToken profile) = .error e →
      (Callback c).status = some 500) := by
  refine ⟨?_, ?_, ?_⟩
  · intro e h
    simp [Callback, Committed.Error, Committed.NoContent, Result.status, Response.status, h,
      StatusInternalServerError]
  · rintro sess a code token raw e ⟨⟨hsg, hcmp⟩, hna, hcode, hex⟩ hraw hv
    simp [Callback, Committed.Error, Committed.NoContent, Result.status, Response.status,
      hsg, hcmp, hna, hcode, hex, hraw, hv, StatusInternalServerError]
  · rintro sess a code token raw idToken profile e ⟨⟨⟨hsg, hcmp⟩, hna, hcode, hex⟩, hraw, hv⟩
      hcl hsave
    simp only [finalValues] at hsave
    simp [Callback, Committed.Error, Committed.NoContent, Result.status, Response.status,
      hsg, hcmp, hna, hcode, hex, hraw, hv, hcl, hsave, StatusInternalServerError]

/-- One run for each case: a session that cannot be loaded, a verification
that fails and a save that fails. -/
theorem Callback_failure_status_witness :
    (Callback { envValid with sessionGet := .error "securecookie: hash key is not set" }).status
      = some 500 ∧
    (Callback envVerifyFails).status = some 500 ∧
    (Callback envSaveFails).status = some 500 :=
  ⟨(Callback_failure_status
      { envValid with sessionGet := .error "securecookie: hash key is not set" }).1 _ rfl,
   (Callback_failure_status envVerifyFails).2.1 [("state", .str "S")] verifyFailsIdP
      "validcode123" stubToken "raw-id-token" "oidc: token is expired"
      ⟨⟨rfl, rfl⟩, rfl, rfl, rfl⟩ rfl rfl,
   (Callback_failure_status envSaveFails).2.2 [("state", .str "S")] stubIdP
      "validcode123" stubToken "raw-id-token"
      { Claims := .ok [("sub", "u1"), ("email", "a@b.com")] } [("sub", "u1"), ("email", "a@b.com")]
      "securecookie: the value is too long" ⟨⟨⟨rfl, rfl⟩, rfl, rfl, rfl⟩, rfl, rfl⟩ rfl rfl⟩

/-! ## Claims about `LoginHandler` and `Middleware` -/

/-- C6: a run of `LoginHandler` that answers with a redirect read the bytes
`b`, saved the session with `state` set to their encoding `S`, and redirects
with status 307 to `AuthCodeURL(S)`; and when the random source, the session
load or the session save fails, the answer is 500 and nothing is saved. -/
theorem LoginHandler_redirect (c : Env) :
    (∀ st url, (LoginHandler c).resp = .redirect st url →
      ∃ b sess a, c.randRead = .ok b ∧ c.sessionGet = .ok sess ∧
        c.NewAuthenticator = .ok a ∧
        c.Save (sess.set "state" (.str (EncodeToString b))) = .ok () ∧
        (LoginHandler c).saved = some (sess.set "state" (.str (EncodeToString b))) ∧
        (sess.set "state" (.str (EncodeToString b))).get "state" = .str (EncodeToString b) ∧
        st = 307 ∧ url = a.AuthCodeURL (EncodeToString b)) ∧
    (∀ e, c.randRead = .error e →
      (LoginHandler c).resp = .noContent 500 ∧ (LoginHandler c).saved = none) ∧
    (∀ e, c.sessionGet = .error e →
      (LoginHandler c).resp = .noContent 500 ∧ (LoginHandler c).saved = none) ∧
    (∀ b sess e, c.randRead = .ok b → c.sessionGet = .ok sess →
      c.Save (sess.set "state" (.str (EncodeToString b))) = .error e →
      (LoginHandler c).resp = .noContent 500 ∧ (LoginHandler c).saved = none) := by
  refine ⟨?_, ?_, ?_, ?_⟩
  · intro st url h
    cases hr : c.randRead with
    | error e => simp [LoginHandler, Committed.Error, Committed.NoContent, Committed.Redirect, StatusInternalServerError, hr] at h
    | ok b =>
      cases hsg : c.sessionGet with
      | error e => simp [LoginHandler, Committed.Error, Committed.NoContent, Committed.Redirect, StatusInternalServerError, hr, hsg] at h
      | ok sess =>
        cases hsave : c.Save (sess.set "state" (.str (EncodeToString b))) with
        | error e => simp [LoginHandler, Committed.Error, Committed.NoContent, Committed.Redirect, StatusInternalServerError, hr, hsg, hsave] at h
        | ok u =>
          cases hna : c.NewAuthenticator with
          | error e => simp [LoginHandler, Committed.Error, Committed.NoContent, Committed.Redirect, StatusInternalServerError, hr, hsg, hsave, hna] at h
          | ok a =>
            simp [LoginHandler, Committed.Error, Committed.NoContent, Committed.Redirect, StatusInternalServerError, hr, hsg, hsave, hna, StatusTemporaryRedirect] at h
            refine ⟨b, sess, a, rfl, rfl, rfl, hsave, ?_, Session.get_set_self _ _ _,
              h.1.symm, h.2.symm⟩
            simp [LoginHandler, Committed.Error, Committed.NoContent, Committed.Redirect, StatusInternalServerError, hr, hsg, hsave, hna]
  · intro e hr
    simp [LoginHandler, Committed.Error, Committed.NoContent, Committed.Redirect, StatusInternalServerError, hr, StatusInternalServerError]
  · intro e hsg
    cases hr : c.randRead with
    | error e1 => simp [LoginHandler, Committed.Error, Committed.NoContent, Committed.Redirect, StatusInternalServerError, hr, StatusInternalServerError]
    | ok b => simp [LoginHandler, Committed.Error, Committed.NoContent, Committed.Redirect, StatusInternalServerError, hr, hsg, StatusInternalServerError]
  · intro b sess e hr hsg hsave
    simp [LoginHandler, Committed.Error, Committed.NoContent, Committed.Redirect, StatusInternalServerError, hr, hsg, hsave, StatusInternalServerError]

/-- A login that redirects, and a login whose save fails. -/
theorem LoginHandler_redirect_witness :
    (∃ b sess a, envValid.randRead = .ok b ∧ envValid.sessionGet = .ok sess ∧
        envValid.NewAuthenticator = .ok a ∧
        envValid.Save (sess.set "state" (.str (EncodeToString b))) = .ok () ∧
        (LoginHandler envValid).saved = some (sess.set "state" (.str (EncodeToString b))) ∧
        (sess.set "state" (.str (EncodeToString b))).get "state" = .str (EncodeToString b) ∧
        307 = 307 ∧
        "https://idp.example/authorize?state=AAECAwQFBgcICQoLDA0ODxAREhMUFRYXGBkaGxwdHh8="
          = a.AuthCodeURL (EncodeToString b)) ∧
    ((LoginHandler envSaveFails).resp = .noContent 500 ∧ (LoginHandler envSaveFails).saved = none) :=
  ⟨(LoginHandler_redirect envValid).1 307
      "https://idp.example/authorize?state=AAECAwQFBgcICQoLDA0ODxAREhMUFRYXGBkaGxwdHh8="
      (by decide),
   (LoginHandler_redirect envSaveFails).2.2.2 (List.range 32) [("state", .str "S")]
      "securecookie: the value is too long" rfl rfl rfl⟩

/-- C7: when the session cannot be loaded `Middleware(next)` answers 500
(committed by `c.Error`, before `c.NoContent(500)`), and when the loaded
session has no `profile` key it returns the error `user not logged in`
without writing a response; both runs are fixed records in which `next` has
no part.  When the loaded session has a `profile` key the run is the run of
`next`. -/
theorem Middleware_guard (next : HandlerFunc) (c : Env) :
    (∀ e, c.sessionGet = .error e →
      Middleware next c =
        { resp := .noContent 500, wire := some (.httpError 500), trace := [.error e],
          sess := none, saved := none }) ∧
    (∀ sess, c.sessionGet = .ok sess → sess.has "profile" = false →
      Middleware next c =
        { resp := .err "user not logged in", wire := none, trace := [],
          sess := some sess, saved := none }) ∧
    (∀ sess, c.sessionGet = .ok sess → sess.has "profile" = true →
      Middleware next c = next c) := by
  refine ⟨?_, ?_, ?_⟩
  · intro e h
    simp [Middleware, Committed.Error, Committed.NoContent, Committed.Redirect, StatusInternalServerError, h, StatusInternalServerError]
  · intro sess h hp
    simp [Middleware, Committed.Error, Committed.NoContent, Committed.Redirect, StatusInternalServerError, h, hp]
  · intro sess h hp
    simp [Middleware, Committed.Error, Committed.NoContent, Committed.Redirect, StatusInternalServerError, h, hp]

/-- A session without profile, a session with profile, and a load failure. -/
theorem Middleware_guard_witness :
    Middleware stubNext envValid =
        { resp := .err "user not logged in", wire := none, trace := [],
          sess := some [("state", .str "S")], saved := none } ∧
    Middleware stubNext envReplay = stubNext envReplay ∧
    Middleware stubNext { envValid with sessionGet := .error "securecookie: hash key is not set" } =
        { resp := .noContent 500, wire := some (.httpError 500),
          trace := [.error "securecookie: hash key is not set"],
          sess := none, saved := none } :=
  ⟨(Middleware_guard stubNext envValid).2.1 [("state", .str "S")] rfl (by decide),
   (Middleware_guard stubNext envReplay).2.2 _ rfl (by decide),
   (Middleware_guard stubNext
      { envValid with sessionGet := .error "securecookie: hash key is not set" }).1 _ rfl⟩

/-- C9: when `rand.Read` filled the buffer with the 32 bytes `b`, the state
that `LoginHandler` writes into the session is the base64 text of `b`:
decoding it gives back `b`, hence 32 bytes, and no other 32 bytes give the
same state. -/
theorem LoginHandler_state_decodes (c : Env) (b : List Nat) (sess : Session)
    (hrand : c.randRead = .ok b) (hlen : b.length = 32) (hbyte : ∀ x ∈ b, x < 256)
    (hload : c.sessionGet = .ok sess) :
    ∃ state, (LoginHandler c).sess = some (sess.set "state" (.str state)) ∧
      state = EncodeToString b ∧
      DecodeString state = some b ∧
      (DecodeString state).map List.length = some 32 ∧
      ∀ b2 : List Nat, b2.length = 32 → (∀ x ∈ b2, x < 256) →
        EncodeToString b2 = state → b2 = b := by
  refine ⟨EncodeToString b, ?_, rfl, DecodeString_EncodeToString b hbyte, ?_, ?_⟩
  · cases hsave : c.Save (sess.set "state" (.str (EncodeToString b))) with
    | error e => simp [LoginHandler, Committed.Error, Committed.NoContent, Committed.Redirect, StatusInternalServerError, hrand, hload, hsave]
    | ok u =>
      cases hna : c.NewAuthenticator with
      | error e => simp [LoginHandler, Committed.Error, Committed.NoContent, Committed.Redirect, StatusInternalServerError, hrand, hload, hsave, hna]
      | ok a => simp [LoginHandler, Committed.Error, Committed.NoContent, Committed.Redirect, StatusInternalServerError, hrand, hload, hsave, hna]
  · rw [DecodeString_EncodeToString b hbyte]
    simp [hlen]
  · intro b2 _ hb2 h
    exact EncodeToString_injective b b2 hbyte hb2 h

/-- A login that reads the bytes 0 to 31. -/
theorem LoginHandler_state_decodes_witness :
    ∃ state, (LoginHandler envValid).sess
        = some (Session.set [("state", .str "S")] "state" (.str state)) ∧
      state = EncodeToString (List.range 32) ∧
      DecodeString state = some (List.range 32) ∧
      (DecodeString state).map List.length = some 32 ∧
      ∀ b2 : List Nat, b2.length = 32 → (∀ x ∈ b2, x < 256) →
        EncodeToString b2 = state → b2 = List.range 32 :=
  LoginHandler_state_decodes envValid (List.range 32) [("state", .str "S")] rfl (by decide)
    (by decide) rfl

/-! ## Claim about `SetMaximumStaples` -/

/-- C10: `userHandler.SetMaximumStaples` is called only when the token gave
an email, the body was bound and `strconv.Atoi` turned `max_staples` into an
`n` with `1 ≤ n ≤ 100`, and then it is called once, with the user of that
email and with `n`; when the token and the body are there and the string
does not parse or `n` is outside `1..100`, the answer is 400 with an
`ApiError` body and the user service is not called. -/
theorem SetMaximumStaples_limit (c : UserEnv) :
    (∀ u n, (u, n) ∈ (SetMaximumStaples c).calls →
      ∃ token claims email body, c.GetToken = .ok token ∧ token.Claims = some claims ∧
        claims.get "email" = .str email ∧ c.Bind = .ok body ∧
        Atoi body = .ok n ∧ 1 ≤ n ∧ n ≤ 100 ∧
        u = { Email := email, Password := "", ConfirmCode := "", MaxStaples := 0 } ∧
        (SetMaximumStaples c).calls = [(u, n)]) ∧
    (∀ token claims email body, c.GetToken = .ok token → token.Claims = some claims →
      claims.get "email" = .str email → c.Bind = .ok body →
      ((∀ n, Atoi body = .ok n → n ≤ 0 ∨ n > 100) →
        (∃ m, (SetMaximumStaples c).resp = .json 400 m ∧ m.Code = 400) ∧
        (SetMaximumStaples c).calls = []) ∧
      (∀ n, Atoi body = .ok n → 1 ≤ n → n ≤ 100 →
        (SetMaximumStaples c).calls =
          [({ Email := email, Password := "", ConfirmCode := "", MaxStaples := 0 }, n)])) := by
  constructor
  · intro u n hmem
    cases htok : c.GetToken with
    | error e => simp [SetMaximumStaples, htok] at hmem
    | ok token =>
      cases hcl : token.Claims with
      | none => simp [SetMaximumStaples, htok, hcl] at hmem
      | some claims =>
        cases hem : claims.get "email" with
        | str email =>
          cases hb : c.Bind with
          | error e => simp [SetMaximumStaples, htok, hcl, hem, hb] at hmem
          | ok body =>
            cases hat : Atoi body with
            | error e => simp [SetMaximumStaples, htok, hcl, hem, hb, hat] at hmem
            | ok k =>
              by_cases hk : k ≤ 0 ∨ k > 100
              · simp [SetMaximumStaples, htok, hcl, hem, hb, hat, hk] at hmem
              · have hcalls : (SetMaximumStaples c).calls =
                    [({ Email := email, Password := "", ConfirmCode := "", MaxStaples := 0 }, k)] := by
                  cases hset : c.SetMaximumStaples
                      { Email := email, Password := "", ConfirmCode := "", MaxStaples := 0 } k <;>
                    simp [SetMaximumStaples, htok, hcl, hem, hb, hat, hk, hset]
                rw [hcalls] at hmem
                simp only [List.mem_singleton, Prod.mk.injEq] at hmem
                obtain ⟨hu, hn⟩ := hmem
                subst hu hn
                refine ⟨token, claims, email, body, rfl, hcl, hem, rfl, hat, ?_, ?_, rfl, hcalls⟩
                · omega
                · omega
        | nil => simp [SetMaximumStaples, htok, hcl, hem] at hmem
        | int i => simp [SetMaximumStaples, htok, hcl, hem] at hmem
        | map m => simp [SetMaximumStaples, htok, hcl, hem] at hmem
  · intro token claims email body htok hcl hem hb
    constructor
    · intro hbad
      cases hat : Atoi body with
      | error e =>
        simp [SetMaximumStaples, htok, hcl, hem, hb, hat, ApiError, StatusBadRequest]
      | ok k =>
        have hk := hbad k hat
        simp [SetMaximumStaples, htok, hcl, hem, hb, hat, hk, ApiError, StatusBadRequest]
    · intro n hat h1 h2
      have hk : ¬ (n ≤ 0 ∨ n > 100) := by omega
      cases hset : c.SetMaximumStaples
          { Email := email, Password := "", ConfirmCode := "", MaxStaples := 0 } n <;>
        simp [SetMaximumStaples, htok, hcl, hem, hb, hat, hk, hset]

/-- The bodies `101`, `ten` and `100`. -/
theorem SetMaximumStaples_limit_witness :
    ((∃ m, (SetMaximumStaples (stubUserEnv "101")).resp = .json 400 m ∧ m.Code = 400) ∧
      (SetMaximumStaples (stubUserEnv "101")).calls = []) ∧
    ((∃ m, (SetMaximumStaples (stubUserEnv "ten")).resp = .json 400 m ∧ m.Code = 400) ∧
      (SetMaximumStaples (stubUserEnv "ten")).calls = []) ∧
    (SetMaximumStaples (stubUserEnv "100")).calls =
      [({ Email := "a@b.com", Password := "", ConfirmCode := "", MaxStaples := 0 }, 100)] :=
  ⟨((SetMaximumStaples_limit (stubUserEnv "101")).2 _ [("email", .str "a@b.com")] "a@b.com"
      "101" rfl rfl rfl rfl).1
      (fun n h => by rw [show Atoi "101" = .ok 101 from rfl] at h; cases h; decide),
   ((SetMaximumStaples_limit (stubUserEnv "ten")).2 _ [("email", .str "a@b.com")] "a@b.com"
      "ten" rfl rfl rfl rfl).1
      (fun n h => by rw [show Atoi "ten" = .error .invalid from rfl] at h; cases h),
   ((SetMaximumStaples_limit (stubUserEnv "100")).2 _ [("email", .str "a@b.com")] "a@b.com"
      "100" rfl rfl rfl rfl).2 100 rfl (by decide) (by decide)⟩

end Staple
